import Mathlib

/-!
Verification of the WhatsApp dispatch layer of the BarbeariAgendamento
repository: the exponential-backoff circuit breaker, the single-message
senders, the per-barbershop instance router with its default-session
fallback, and the throttled reminder batch loop.

The definitions below are a shallow embedding of the JavaScript source:
  - the advanced circuit breaker and `sendWhatsAppConfirmation` of the
    Evolution gateway module (the module imported as `evolutionWhatsapp.js`),
  - the simple fixed-cooldown breaker and the two older sender variants
    (Evolution simple and WAHA),
  - `sendWhatsAppMessage` / `sendViaInstance` of
    `src/backend/src/services/whatsappMessageService.js`,
  - the per-booking loop of `sendDailyReminders` in
    `src/backend/src/services/schedulerService.js`.
Timestamps are milliseconds as `Nat` (the JS code only ever subtracts a
recorded `Date.now()` from a later one and compares against a positive
delay, so truncated subtraction agrees with JS number arithmetic on every
reachable comparison; note JS `Date.now() - null` coerces `null` to `0`,
which `Option.getD 0` reproduces).  Network calls are abstracted as an
`Except` outcome parameter; `Math.random()` draws are rational parameters
in `[0, 1)`.
-/

/-- States of the circuit breaker: CLOSED (normal), OPEN (blocked),
HALF_OPEN (probing). -/
inductive BreakerState where
  | CLOSED
  | OPEN
  | HALF_OPEN
deriving DecidableEq, Repr

/-- The advanced circuit breaker of the Evolution gateway module
(`circuitBreaker` object, exponential-backoff variant): mutable fields of
the module-level singleton. -/
structure CircuitBreaker where
  state : BreakerState
  failures : Nat
  consecutiveFailures : Nat
  totalBlockedRequests : Nat
  currentDelayMs : Nat
  lastFailureTime : Option Nat
  lastLogTime : Option Nat
deriving DecidableEq, Repr

/-- `failureThreshold`: the circuit opens after 3 consecutive failures. -/
def failureThreshold : Nat := 3

/-- `maxLogFailures`: logging stops after 10 failures (log-only). -/
def maxLogFailures : Nat := 10

/-- `baseDelayMs`: backoff starts at 30 seconds. -/
def baseDelayMs : Nat := 30000

/-- `maxDelayMs`: backoff is capped at 1 hour. -/
def maxDelayMs : Nat := 3600000

/-- `backoffMultiplier`: the delay doubles on each failure while OPEN. -/
def backoffMultiplier : Nat := 2

/-- `logIntervalMs`: periodic log interval while blocked (log-only). -/
def logIntervalMs : Nat := 300000

/-- The initial value of the `circuitBreaker` singleton. -/
def initialBreaker : CircuitBreaker :=
  { state := .CLOSED
    failures := 0
    consecutiveFailures := 0
    totalBlockedRequests := 0
    currentDelayMs := baseDelayMs
    lastFailureTime := none
    lastLogTime := none }

/-- `circuitBreaker.recordFailure()` of the exponential-backoff breaker:
increments `failures` and `consecutiveFailures`, stamps `lastFailureTime`;
if the threshold is reached and the state is not already OPEN, opens the
circuit and resets `currentDelayMs` to the base delay; if the state is
already OPEN, doubles `currentDelayMs` capped at `maxDelayMs` (and updates
the log timestamp when the periodic-log condition fires).  `now` stands
for `Date.now()`. -/
def recordFailure (now : Nat) (s : CircuitBreaker) : CircuitBreaker :=
  let s1 := { s with
    failures := s.failures + 1
    consecutiveFailures := s.consecutiveFailures + 1
    lastFailureTime := some now }
  if failureThreshold ≤ s1.consecutiveFailures ∧ s1.state ≠ .OPEN then
    { s1 with state := .OPEN, currentDelayMs := baseDelayMs }
  else if s1.state = .OPEN then
    let s2 := { s1 with
      currentDelayMs := min (s1.currentDelayMs * backoffMultiplier) maxDelayMs }
    if (s2.lastLogTime.getD 0 = 0 ∨ logIntervalMs ≤ now - s2.lastLogTime.getD 0)
        ∧ s2.failures ≤ maxLogFailures * 2 then
      { s2 with lastLogTime := some now }
    else s2
  else s1

/-- `circuitBreaker.recordSuccess()`: zeroes `consecutiveFailures`, closes
the circuit, resets `currentDelayMs` to the base delay, and resets
`totalBlockedRequests` when the breaker was OPEN or had ever failed.
Lifetime `failures` is deliberately not reset. -/
def recordSuccess (s : CircuitBreaker) : CircuitBreaker :=
  let wasOpen := s.state = .OPEN
  let previousFailures := s.failures
  let s1 := { s with
    consecutiveFailures := 0
    state := .CLOSED
    currentDelayMs := baseDelayMs }
  if wasOpen ∨ 0 < previousFailures then
    { s1 with totalBlockedRequests := 0 }
  else s1

/-- `circuitBreaker.canRequest()`: true when CLOSED; otherwise true and
transitions to HALF_OPEN exactly when the time since the last failure has
reached `currentDelayMs`, else false with `totalBlockedRequests`
incremented.  Pure state check: the embedding returns the decision and
the updated state, it performs no waiting. -/
def canRequest (now : Nat) (s : CircuitBreaker) : Bool × CircuitBreaker :=
  if s.state = .CLOSED then (true, s)
  else
    let timeSinceLastFailure := now - s.lastFailureTime.getD 0
    if s.currentDelayMs ≤ timeSinceLastFailure then
      (true, { s with state := .HALF_OPEN })
    else
      (false, { s with totalBlockedRequests := s.totalBlockedRequests + 1 })

/-- `nextRetryIn` of `circuitBreaker.getStatus()`:
`max(0, currentDelayMs - (now - lastFailureTime))` when a failure has been
recorded, else 0. -/
def nextRetryIn (now : Nat) (s : CircuitBreaker) : Nat :=
  match s.lastFailureTime with
  | some t => s.currentDelayMs - (now - t)
  | none => 0

/-- Breaker states reachable from the initial singleton by any sequence of
`recordFailure`, `recordSuccess` and `canRequest` calls (the only
operations that mutate the breaker in the source). -/
inductive Reachable : CircuitBreaker → Prop where
  | init : Reachable initialBreaker
  | fail (now : Nat) {s : CircuitBreaker} :
      Reachable s → Reachable (recordFailure now s)
  | succ {s : CircuitBreaker} :
      Reachable s → Reachable (recordSuccess s)
  | poll (now : Nat) {s : CircuitBreaker} :
      Reachable s → Reachable ((canRequest now s).2)

/-- The inductive invariant of the advanced breaker: a CLOSED breaker is
below the failure threshold, a non-CLOSED breaker has a recorded last
failure and is at or above the threshold, the backoff delay never exceeds
its cap, and a breaker that has never failed has blocked nothing and is
CLOSED. -/
def BreakerInv (s : CircuitBreaker) : Prop :=
  (s.state = .CLOSED → s.consecutiveFailures < failureThreshold) ∧
  (s.state ≠ .CLOSED →
    s.lastFailureTime ≠ none ∧ failureThreshold ≤ s.consecutiveFailures) ∧
  s.currentDelayMs ≤ maxDelayMs ∧
  (s.failures = 0 → s.totalBlockedRequests = 0 ∧ s.state = .CLOSED)

theorem breakerInv_initial : BreakerInv initialBreaker := by
  simp [BreakerInv, initialBreaker, failureThreshold, baseDelayMs, maxDelayMs]

theorem breakerInv_recordFailure (now : Nat) (s : CircuitBreaker)
    (h : BreakerInv s) : BreakerInv (recordFailure now s) := by
  obtain ⟨st, f, cf, tbr, cd, lft, llt⟩ := s
  simp only [BreakerInv, recordFailure, failureThreshold, baseDelayMs, maxDelayMs,
    backoffMultiplier, maxLogFailures, logIntervalMs] at h ⊢
  obtain ⟨h1, h2, h3, h4⟩ := h
  cases st <;> simp_all <;> split <;> simp_all <;> omega

theorem breakerInv_recordSuccess (s : CircuitBreaker)
    (h : BreakerInv s) : BreakerInv (recordSuccess s) := by
  obtain ⟨st, f, cf, tbr, cd, lft, llt⟩ := s
  simp only [BreakerInv, recordSuccess, failureThreshold, baseDelayMs, maxDelayMs] at h ⊢
  obtain ⟨h1, h2, h3, h4⟩ := h
  cases st <;> simp_all <;> split <;> simp_all

theorem breakerInv_canRequest (now : Nat) (s : CircuitBreaker)
    (h : BreakerInv s) : BreakerInv ((canRequest now s).2) := by
  obtain ⟨st, f, cf, tbr, cd, lft, llt⟩ := s
  simp only [BreakerInv, canRequest, failureThreshold, maxDelayMs] at h ⊢
  obtain ⟨h1, h2, h3, h4⟩ := h
  cases st <;> simp_all <;> split <;> simp_all

theorem reachable_inv {s : CircuitBreaker} (h : Reachable s) : BreakerInv s := by
  induction h with
  | init => exact breakerInv_initial
  | fail now _ ih => exact breakerInv_recordFailure now _ ih
  | succ _ ih => exact breakerInv_recordSuccess _ ih
  | poll now _ ih => exact breakerInv_canRequest now _ ih

/-- Environment configuration read by a sender: the gateway base URL and
API key environment variables, `none` when unset. -/
structure Env where
  apiUrl : Option String
  apiKey : Option String
deriving DecidableEq, Repr

/-- JS truthiness of a string-valued environment variable or field:
falsy when absent or the empty string. -/
def truthyStr : Option String → Bool
  | none => false
  | some s => s ≠ ""

/-- JS `a || d` for a possibly-absent string `a`: the fallback is used
when `a` is absent or empty. -/
def jsOr (a : Option String) (d : String) : String :=
  match a with
  | none => d
  | some s => if s = "" then d else s

/-- An axios rejection, as the catch blocks of the source inspect it:
optional HTTP status (`error.response?.status`), optional gateway message
(`error.response?.data?.message`), optional `error.message` and
`error.code`. -/
structure AxiosError where
  status : Option Nat
  dataMessage : Option String
  message : Option String
  code : Option String
deriving DecidableEq, Repr

/-- The record a sender resolves with, covering the fields the three
source variants produce (`via` is produced only by `sendViaInstance`,
`blocked`/`retryIn` only by the advanced Evolution sender). -/
structure SendResult where
  success : Bool
  error : Option String
  blocked : Bool
  retryIn : Option Nat
  status : Option Nat
  code : Option String
  via : Option String
deriving DecidableEq, Repr

/-- A successful send: `{ success: true }`. -/
def okResult : SendResult :=
  { success := true, error := none, blocked := false, retryIn := none,
    status := none, code := none, via := none }

/-- A failure record carrying an error description. -/
def errResult (e : String) : SendResult :=
  { success := false, error := some e, blocked := false, retryIn := none,
    status := none, code := none, via := none }

/-- JS `Math.round(n / 1000)` for a natural `n`. -/
def roundDiv1000 (n : Nat) : Nat := (n + 500) / 1000

/-- `customerPhone.replace(/\D/g, "")`: keep only the digits. -/
def cleanDigits (s : String) : String :=
  String.mk (s.data.filter Char.isDigit)

/-- Return value of the advanced `sendWhatsAppConfirmation`: the resolved
record, the breaker state after the call, and whether the gateway
transport was actually invoked (false on the missing-configuration and
circuit-open paths, which return before any network call). -/
structure ConfResult where
  res : SendResult
  cb : CircuitBreaker
  attemptedTransport : Bool
deriving DecidableEq, Repr

/-- `sendWhatsAppConfirmation(customerPhone, message)` of the advanced
Evolution module: returns a missing-configuration record when either
environment variable is falsy; returns a blocked record (with
`retryIn` from `getStatus().nextRetryIn`) when the circuit breaker
rejects the call; otherwise performs the transport call (abstracted as
`outcome`), records success or failure on the breaker, and resolves with
`{ success: true }` or a failure record built from the axios error.
Every path resolves with a record: the function never rejects. -/
def sendWhatsAppConfirmation (env : Env) (cb : CircuitBreaker) (now : Nat)
    (outcome : Except AxiosError Unit) (customerPhone message : String) :
    ConfResult :=
  if ¬ (truthyStr env.apiUrl ∧ truthyStr env.apiKey) then
    { res := errResult "Configuracao ausente", cb := cb, attemptedTransport := false }
  else
    match canRequest now cb with
    | (false, cb1) =>
      { res := { errResult "Evolution API temporariamente indisponivel" with
                  blocked := true
                  retryIn := some (roundDiv1000 (nextRetryIn now cb1)) }
        cb := cb1
        attemptedTransport := false }
    | (true, cb1) =>
      match outcome with
      | .ok _ =>
        { res := okResult, cb := recordSuccess cb1, attemptedTransport := true }
      | .error e =>
        { res := { errResult (jsOr e.dataMessage (jsOr e.message "Erro desconhecido")) with
                    status := e.status
                    code := e.code }
          cb := recordFailure now cb1
          attemptedTransport := true }

/-- The simple fixed-cooldown circuit breaker shared by the older
Evolution and WAHA sender variants: only a lifetime `failures` counter,
a 5-failure threshold and a fixed 60 s cooldown. -/
structure SimpleBreaker where
  state : BreakerState
  failures : Nat
  lastFailureTime : Option Nat
deriving DecidableEq, Repr

/-- `failureThreshold` of the simple breaker: 5. -/
def simpleFailureThreshold : Nat := 5

/-- `cooldownMs` of the simple breaker: 60 s. -/
def simpleCooldownMs : Nat := 60000

/-- Initial value of the simple breaker singleton. -/
def initialSimpleBreaker : SimpleBreaker :=
  { state := .CLOSED, failures := 0, lastFailureTime := none }

/-- `recordFailure()` of the simple breaker. -/
def simpleRecordFailure (now : Nat) (s : SimpleBreaker) : SimpleBreaker :=
  let s1 := { s with failures := s.failures + 1, lastFailureTime := some now }
  if simpleFailureThreshold ≤ s1.failures then { s1 with state := .OPEN } else s1

/-- `recordSuccess()` of the simple breaker. -/
def simpleRecordSuccess (s : SimpleBreaker) : SimpleBreaker :=
  { s with failures := 0, state := .CLOSED }

/-- `canRequest()` of the simple breaker. -/
def simpleCanRequest (now : Nat) (s : SimpleBreaker) : Bool × SimpleBreaker :=
  if s.state = .CLOSED then (true, s)
  else if simpleCooldownMs ≤ now - s.lastFailureTime.getD 0 then
    (true, { s with state := .HALF_OPEN })
  else (false, s)

/-- Return value of the two simple sender variants. -/
structure SimpleConfResult where
  res : SendResult
  cb : SimpleBreaker
deriving DecidableEq, Repr

/-- The older Evolution `sendWhatsAppConfirmation(customerPhone, message)`
(fixed-cooldown breaker variant): configuration check, breaker check, one
transport call, resolve with a record on every path. -/
def sendWhatsAppConfirmationSimple (env : Env) (cb : SimpleBreaker) (now : Nat)
    (outcome : Except AxiosError Unit) (customerPhone message : String) :
    SimpleConfResult :=
  if ¬ (truthyStr env.apiUrl ∧ truthyStr env.apiKey) then
    { res := errResult "Configuracao ausente", cb := cb }
  else
    match simpleCanRequest now cb with
    | (false, cb1) =>
      { res := errResult "Evolution API indisponivel (circuit breaker aberto)", cb := cb1 }
    | (true, cb1) =>
      match outcome with
      | .ok _ => { res := okResult, cb := simpleRecordSuccess cb1 }
      | .error e =>
        { res := { errResult (jsOr e.dataMessage (jsOr e.message "Erro desconhecido")) with
                    status := e.status }
          cb := simpleRecordFailure now cb1 }

/-- The WAHA `sendWhatsAppConfirmation(customerPhone, message)`: same
shape as the simple Evolution variant, but before the actual send it
fires a typing-presence call whose failure is swallowed by an inner
catch (`typingOutcome` is therefore only observed, never propagated) and
sleeps a randomized 2-3 s humanizing delay.  Every path resolves with a
record. -/
def sendWhatsAppConfirmationWaha (env : Env) (cb : SimpleBreaker) (now : Nat)
    (typingOutcome : Except AxiosError Unit)
    (outcome : Except AxiosError Unit) (customerPhone message : String) :
    SimpleConfResult :=
  if ¬ (truthyStr env.apiUrl ∧ truthyStr env.apiKey) then
    { res := errResult "Configuracao ausente", cb := cb }
  else
    match simpleCanRequest now cb with
    | (false, cb1) =>
      { res := errResult "WAHA API indisponivel (circuit breaker aberto)", cb := cb1 }
    | (true, cb1) =>
      -- the inner try swallows any typing failure; only the send outcome decides
      match outcome with
      | .ok _ => { res := okResult, cb := simpleRecordSuccess cb1 }
      | .error e =>
        { res := { errResult (jsOr e.dataMessage (jsOr e.message "Erro desconhecido")) with
                    status := e.status }
          cb := simpleRecordFailure now cb1 }

/-- `barbershop.whatsappConfig` as read by the router. -/
structure WhatsappConfig where
  enabled : Bool
  connectionStatus : String
  instanceName : Option String
deriving DecidableEq, Repr

/-- Observable outcome of one `sendWhatsAppMessage` call: the resolved
record, the breaker state afterwards, the `connectionStatus` value written
to the barbershop document (`none` when nothing was written), whether the
default-session sender `sendWhatsAppConfirmation` was invoked, and whether
the dedicated-instance transport call was performed. -/
structure RouterResult where
  result : SendResult
  breaker : CircuitBreaker
  statusWrite : Option String
  defaultInvoked : Bool
  dedicatedAttempted : Bool
deriving DecidableEq, Repr

/-- `sendViaInstance(instanceName, customerPhone, message, barbershopId)`:
posts through the barbershop's dedicated instance (abstracted as
`dedOutcome`; this call does not consult the circuit breaker).  On
success resolves `{ success: true, via: "barbershop" }`.  On an axios
error with HTTP status 404 or 401 it writes
`whatsappConfig.connectionStatus = "disconnected"` and resolves with the
result of the default-session `sendWhatsAppConfirmation`; on any other
error it rethrows (`Except.error`). -/
def sendViaInstance (env : Env) (cb : CircuitBreaker) (now : Nat)
    (dedOutcome : Except AxiosError Unit) (defOutcome : Except AxiosError Unit)
    (customerPhone message : String) : Except AxiosError RouterResult :=
  match dedOutcome with
  | .ok _ =>
    .ok { result := { okResult with via := some "barbershop" }
          breaker := cb
          statusWrite := none
          defaultInvoked := false
          dedicatedAttempted := true }
  | .error e =>
    if e.status = some 404 ∨ e.status = some 401 then
      let c := sendWhatsAppConfirmation env cb now defOutcome customerPhone message
      .ok { result := c.res
            breaker := c.cb
            statusWrite := some "disconnected"
            defaultInvoked := true
            dedicatedAttempted := true }
    else .error e

/-- `sendWhatsAppMessage(barbershopId, customerPhone, message)`: looks up
the barbershop's `whatsappConfig`; when the tenant has an enabled,
connected, named instance it tries `sendViaInstance`, and its outer
catch-all turns ANY rethrown error into a fallback call to the
default-session `sendWhatsAppConfirmation`; otherwise it calls the
default-session sender directly.  The function itself always resolves
with a record. -/
def sendWhatsAppMessage (cfg : Option WhatsappConfig) (env : Env)
    (cb : CircuitBreaker) (now : Nat)
    (dedOutcome : Except AxiosError Unit) (defOutcome : Except AxiosError Unit)
    (customerPhone message : String) : RouterResult :=
  let hasOwnWhatsApp :=
    match cfg with
    | some c => c.enabled && (c.connectionStatus = "connected") && truthyStr c.instanceName
    | none => false
  if hasOwnWhatsApp then
    match sendViaInstance env cb now dedOutcome defOutcome customerPhone message with
    | .ok rr => rr
    | .error _ =>
      let c := sendWhatsAppConfirmation env cb now defOutcome customerPhone message
      { result := c.res
        breaker := c.cb
        statusWrite := none
        defaultInvoked := true
        dedicatedAttempted := true }
  else
    let c := sendWhatsAppConfirmation env cb now defOutcome customerPhone message
    { result := c.res
      breaker := c.cb
      statusWrite := none
      defaultInvoked := true
      dedicatedAttempted := false }

/-- Outcome of one awaited sender promise inside the reminder loop.  In
the source `sendWhatsAppConfirmation` always resolves (possibly with
`success: false`); `rejected` models a rejected promise, which the loop's
catch block logs and swallows. -/
inductive SendOutcome where
  | resolved (r : SendResult)
  | rejected (msg : String)
deriving DecidableEq, Repr

/-- Whether the awaited promise resolved (the `sentCount++` line runs). -/
def SendOutcome.isResolved : SendOutcome → Bool
  | .resolved _ => true
  | .rejected _ => false

/-- One populated booking as the reminder loop inspects it: whether
`customer`, `barbershop` and `barber` are all populated, the appointment
hour in the Brazil timezone, and the customer phone. -/
structure ReminderItem where
  populated : Bool
  appointmentHour : Nat
  phone : String
deriving DecidableEq, Repr

/-- The trigger-hour filter of `sendDailyReminders`: the 8 o'clock run
skips appointments at 13 h or later, the 13 o'clock run skips
appointments before 13 h. -/
def hourFilterSkips (triggerHour appointmentHour : Nat) : Bool :=
  (triggerHour = 8 && 13 ≤ appointmentHour) || (triggerHour = 13 && appointmentHour < 13)

/-- Whether the loop body reaches the send for this booking (populated
and not filtered out by the trigger hour). -/
def processes (triggerHour : Nat) (x : ReminderItem × SendOutcome × ℚ) : Bool :=
  x.1.populated && ! hourFilterSkips triggerHour x.1.appointmentHour

/-- `Math.floor(Math.random() * (MAX_DELAY - MIN_DELAY + 1)) + MIN_DELAY`
with `MIN_DELAY = 5000`, `MAX_DELAY = 15000`: the randomized pause of the
reminder loop, for a `Math.random()` draw `r`. -/
def randomDelayMs (r : ℚ) : Nat :=
  (⌊r * 10001⌋).toNat + 5000

/-- Observable trace of one `sendDailyReminders` run: the `sentCount` the
source reports, the phones for which the sender was invoked (in loop
order), and the randomized sleeps awaited (in loop order). -/
structure BatchTrace where
  sentCount : Nat
  attempted : List String
  sleeps : List Nat
deriving DecidableEq, Repr

/-- The per-booking loop of `sendDailyReminders(triggerHour)`: each item
carries the booking data, the outcome its awaited send would have, and
the `Math.random()` draw for its pause.  Unpopulated or hour-filtered
bookings are skipped with `continue` (no send, no pause).  For every
other booking the sender is invoked; `sentCount` is incremented whenever
the promise resolves (the source never checks `result.success`), a
rejection is caught and logged; in both cases the loop then awaits the
randomized pause.  One booking's failure never aborts the loop. -/
def sendDailyRemindersLoop (triggerHour : Nat) :
    List (ReminderItem × SendOutcome × ℚ) → BatchTrace
  | [] => { sentCount := 0, attempted := [], sleeps := [] }
  | (item, outcome, r) :: rest =>
    if ¬ item.populated then sendDailyRemindersLoop triggerHour rest
    else if hourFilterSkips triggerHour item.appointmentHour then
      sendDailyRemindersLoop triggerHour rest
    else
      let t := sendDailyRemindersLoop triggerHour rest
      { sentCount := (if outcome.isResolved then 1 else 0) + t.sentCount
        attempted := item.phone :: t.attempted
        sleeps := randomDelayMs r :: t.sleeps }

/-- The breaker after exactly `failureThreshold` (= 3) consecutive
`recordFailure` calls from the initial state, at times `t1, t2, t3`. -/
def breakerAfter3 (t1 t2 t3 : Nat) : CircuitBreaker :=
  recordFailure t3 (recordFailure t2 (recordFailure t1 initialBreaker))

theorem breakerAfter3_val (t1 t2 t3 : Nat) :
    breakerAfter3 t1 t2 t3 =
      { state := .OPEN, failures := 3, consecutiveFailures := 3,
        totalBlockedRequests := 0, currentDelayMs := baseDelayMs,
        lastFailureTime := some t3, lastLogTime := none } := rfl

/-- C2: starting from the initial CLOSED state, after exactly
`failureThreshold` consecutive `recordFailure` calls the breaker is OPEN
with `currentDelayMs` equal to the base delay and `lastFailureTime` the
time of the third failure; `canRequest` then returns false and increments
`totalBlockedRequests` exactly when the elapsed time since the last
failure is below `currentDelayMs`, and returns true transitioning the
state to HALF_OPEN exactly when the elapsed time has reached
`currentDelayMs`.  `canRequest` is embedded as a pure state transition:
it performs no sleeping or I/O. -/
theorem breaker_threshold_then_canRequest (t1 t2 t3 now : Nat) :
    (breakerAfter3 t1 t2 t3).state = .OPEN ∧
    (breakerAfter3 t1 t2 t3).currentDelayMs = baseDelayMs ∧
    (breakerAfter3 t1 t2 t3).lastFailureTime = some t3 ∧
    canRequest now (breakerAfter3 t1 t2 t3) =
      (if baseDelayMs ≤ now - t3 then
        (true, { breakerAfter3 t1 t2 t3 with state := .HALF_OPEN })
      else
        (false, { breakerAfter3 t1 t2 t3 with totalBlockedRequests := 1 })) := by
  rw [breakerAfter3_val]
  refine ⟨rfl, rfl, rfl, ?_⟩
  simp only [canRequest, Option.getD]
  split <;> split <;> simp_all

/-- C3 counterexample: the claimed invariant fails on the code.  After a
single `recordFailure` from the initial state the breaker is still CLOSED
(one failure is below the threshold of 3) but `consecutiveFailures` is 1,
refuting `state == CLOSED implies consecutiveFailures == 0`. -/
theorem breaker_closed_zero_failures_counterexample :
    ¬ (∀ s : CircuitBreaker, Reachable s →
        (s.state = .OPEN → s.lastFailureTime ≠ none) ∧
        (s.state = .CLOSED → s.consecutiveFailures = 0)) := by
  intro h
  have hr : Reachable (recordFailure 0 initialBreaker) :=
    Reachable.fail 0 Reachable.init
  exact absurd ((h _ hr).2 (by decide)) (by decide)

/-- C3 amended: in every reachable breaker state, `state == OPEN` implies
`lastFailureTime` is non-null, and `state == CLOSED` implies
`consecutiveFailures` is below `failureThreshold` (it need not be 0:
sub-threshold failures leave the breaker CLOSED with a positive count). -/
theorem breaker_state_invariant_amended (s : CircuitBreaker) (h : Reachable s) :
    (s.state = .OPEN → s.lastFailureTime ≠ none) ∧
    (s.state = .CLOSED → s.consecutiveFailures < failureThreshold) := by
  obtain ⟨h1, h2, _, _⟩ := reachable_inv h
  exact ⟨fun hop => (h2 (by rw [hop]; exact fun hc => by cases hc)).1, h1⟩

theorem breaker_state_invariant_amended_witness :
    (initialBreaker.state = .OPEN → initialBreaker.lastFailureTime ≠ none) ∧
    (initialBreaker.state = .CLOSED →
      initialBreaker.consecutiveFailures < failureThreshold) :=
  breaker_state_invariant_amended initialBreaker Reachable.init

/-- C5: every `recordFailure` call made while the breaker state is OPEN
sets `currentDelayMs` to `min(currentDelayMs * backoffMultiplier,
maxDelayMs)` (multiplier 2, max 3600000 ms), and in every reachable state
`currentDelayMs` never exceeds `maxDelayMs`. -/
theorem open_backoff_growth_bounded :
    (∀ (s : CircuitBreaker) (now : Nat), s.state = .OPEN →
      (recordFailure now s).currentDelayMs =
        min (s.currentDelayMs * backoffMultiplier) maxDelayMs) ∧
    (∀ s : CircuitBreaker, Reachable s → s.currentDelayMs ≤ maxDelayMs) := by
  constructor
  · intro s now hop
    obtain ⟨st, f, cf, tbr, cd, lft, llt⟩ := s
    simp only at hop
    subst hop
    simp only [recordFailure, failureThreshold]
    split
    · simp_all
    · split
      · split <;> rfl
      · simp_all
  · intro s h
    exact (reachable_inv h).2.2.1

theorem open_backoff_growth_bounded_witness :
    (recordFailure 0 (breakerAfter3 0 0 0)).currentDelayMs =
      min ((breakerAfter3 0 0 0).currentDelayMs * backoffMultiplier) maxDelayMs ∧
    initialBreaker.currentDelayMs ≤ maxDelayMs :=
  ⟨open_backoff_growth_bounded.1 (breakerAfter3 0 0 0) 0 (by decide),
   open_backoff_growth_bounded.2 initialBreaker Reachable.init⟩

/-- A reachable HALF_OPEN breaker whose backoff delay has grown to
60000 ms: three failures open the circuit at the base delay, a fourth
while OPEN doubles the delay, and a successful `canRequest` poll after
the wait moves it to HALF_OPEN. -/
def brWaitedHalfOpen : CircuitBreaker :=
  (canRequest 60000
    (recordFailure 0 (recordFailure 0 (recordFailure 0
      (recordFailure 0 initialBreaker))))).2

theorem brWaitedHalfOpen_reachable : Reachable brWaitedHalfOpen :=
  Reachable.poll 60000 (Reachable.fail 0 (Reachable.fail 0
    (Reachable.fail 0 (Reachable.fail 0 Reachable.init))))

/-- C6 counterexample: a probe failure in HALF_OPEN does not grow the
delay.  In the reachable HALF_OPEN state with `currentDelayMs = 60000`,
`recordFailure` re-opens the circuit through the threshold branch, which
RESETS `currentDelayMs` to the 30000 ms base delay (60000 is not at most
30000), refuting the claim that the delay grows. -/
theorem halfopen_failure_delay_growth_counterexample :
    ¬ (∀ (s : CircuitBreaker) (now : Nat), Reachable s →
        s.state = .HALF_OPEN →
        s.currentDelayMs ≤ (recordFailure now s).currentDelayMs) := by
  intro h
  exact absurd (h brWaitedHalfOpen 60000 brWaitedHalfOpen_reachable (by decide))
    (by decide)

/-- C6 amended: when `recordFailure` is called in a reachable HALF_OPEN
state, the state transitions back to OPEN, but `currentDelayMs` is reset
to the base delay (the HALF_OPEN state re-enters the threshold branch,
which restarts the backoff rather than growing it). -/
theorem halfopen_failure_reopens_resets_delay (s : CircuitBreaker) (now : Nat)
    (h : Reachable s) (hs : s.state = .HALF_OPEN) :
    (recordFailure now s).state = .OPEN ∧
    (recordFailure now s).currentDelayMs = baseDelayMs := by
  have hcf := ((reachable_inv h).2.1 (by rw [hs]; exact fun hc => by cases hc)).2
  obtain ⟨st, f, cf, tbr, cd, lft, llt⟩ := s
  simp only at hs
  subst hs
  simp only [failureThreshold] at hcf
  simp only [recordFailure, failureThreshold]
  split
  · exact ⟨rfl, rfl⟩
  · simp_all
    omega

theorem halfopen_failure_reopens_resets_delay_witness :
    (recordFailure 60000 brWaitedHalfOpen).state = .OPEN ∧
    (recordFailure 60000 brWaitedHalfOpen).currentDelayMs = baseDelayMs :=
  halfopen_failure_reopens_resets_delay brWaitedHalfOpen 60000
    brWaitedHalfOpen_reachable (by decide)

/-- C7: on every reachable breaker state, a single `recordSuccess` call
sets `consecutiveFailures` to 0, the state to CLOSED, `currentDelayMs` to
the base delay and `totalBlockedRequests` to 0, and `recordSuccess` is
idempotent: a second call in a row yields exactly the same state (all
counters are natural numbers, so none can go negative). -/
theorem recordSuccess_resets_and_idempotent (s : CircuitBreaker)
    (h : Reachable s) :
    (recordSuccess s).consecutiveFailures = 0 ∧
    (recordSuccess s).state = .CLOSED ∧
    (recordSuccess s).currentDelayMs = baseDelayMs ∧
    (recordSuccess s).totalBlockedRequests = 0 ∧
    recordSuccess (recordSuccess s) = recordSuccess s := by
  have h4 := (reachable_inv h).2.2.2
  obtain ⟨st, f, cf, tbr, cd, lft, llt⟩ := s
  simp only at h4
  rcases Nat.eq_zero_or_pos f with hf | hf
  · subst hf
    obtain ⟨htbr, hst⟩ := h4 rfl
    subst htbr hst
    simp [recordSuccess]
  · simp [recordSuccess, hf]

theorem recordSuccess_resets_and_idempotent_witness :
    (recordSuccess (breakerAfter3 0 0 0)).consecutiveFailures = 0 ∧
    (recordSuccess (breakerAfter3 0 0 0)).state = .CLOSED ∧
    (recordSuccess (breakerAfter3 0 0 0)).currentDelayMs = baseDelayMs ∧
    (recordSuccess (breakerAfter3 0 0 0)).totalBlockedRequests = 0 ∧
    recordSuccess (recordSuccess (breakerAfter3 0 0 0)) =
      recordSuccess (breakerAfter3 0 0 0) :=
  recordSuccess_resets_and_idempotent (breakerAfter3 0 0 0)
    (Reachable.fail 0 (Reachable.fail 0 (Reachable.fail 0 Reachable.init)))

/-- C1 counterexample: the router does NOT propagate a non-AuthOrNotFound
dedicated-session error without attempting the default session.  With a
connected tenant and a dedicated-session timeout (no HTTP status, code
ECONNABORTED), `sendViaInstance` rethrows, but the catch-all in
`sendWhatsAppMessage` catches the rethrown error and invokes the
default-session sender, so `defaultInvoked` is true, refuting the claim. -/
theorem router_no_fallback_counterexample :
    ¬ (∀ (c : WhatsappConfig) (env : Env) (cb : CircuitBreaker) (now : Nat)
        (e : AxiosError) (defOutcome : Except AxiosError Unit) (phone msg : String),
        c.enabled = true → c.connectionStatus = "connected" →
        truthyStr c.instanceName = true →
        ¬ (e.status = some 404 ∨ e.status = some 401) →
        (sendWhatsAppMessage (some c) env cb now (.error e) defOutcome
          phone msg).defaultInvoked = false) := by
  intro h
  have := h ⟨true, "connected", some "inst"⟩ ⟨some "http://api", some "key"⟩
    initialBreaker 0 ⟨none, none, some "timeout of 10000ms exceeded", some "ECONNABORTED"⟩
    (.ok ()) "11912345678" "oi" rfl rfl (by decide) (by decide)
  exact absurd this (by decide)

/-- C1 amended: when the dedicated-session attempt of a connected tenant
fails with an error that is not AuthOrNotFound, no `connectionStatus`
write happens, but the error rethrown by `sendViaInstance` is caught by
the catch-all of `sendWhatsAppMessage`, which attempts the shared default
session and returns that attempt's result instead of propagating the
original error. -/
theorem router_fallback_on_generic_error (c : WhatsappConfig) (env : Env)
    (cb : CircuitBreaker) (now : Nat) (e : AxiosError)
    (defOutcome : Except AxiosError Unit) (phone msg : String)
    (hen : c.enabled = true) (hcs : c.connectionStatus = "connected")
    (hin : truthyStr c.instanceName = true)
    (hna : ¬ (e.status = some 404 ∨ e.status = some 401)) :
    (sendWhatsAppMessage (some c) env cb now (.error e) defOutcome phone msg).statusWrite
      = none ∧
    (sendWhatsAppMessage (some c) env cb now (.error e) defOutcome phone msg).defaultInvoked
      = true ∧
    (sendWhatsAppMessage (some c) env cb now (.error e) defOutcome phone msg).result
      = (sendWhatsAppConfirmation env cb now defOutcome phone msg).res ∧
    (sendWhatsAppMessage (some c) env cb now (.error e) defOutcome phone msg).breaker
      = (sendWhatsAppConfirmation env cb now defOutcome phone msg).cb := by
  simp only [sendWhatsAppMessage, sendViaInstance, hen, hcs, hin]
  rw [if_neg hna]
  simp

theorem router_fallback_on_generic_error_witness :
    (sendWhatsAppMessage (some ⟨true, "connected", some "inst"⟩)
      ⟨some "http://api", some "key"⟩ initialBreaker 0
      (.error ⟨none, none, some "timeout of 10000ms exceeded", some "ECONNABORTED"⟩)
      (.ok ()) "11912345678" "oi").statusWrite = none ∧
    (sendWhatsAppMessage (some ⟨true, "connected", some "inst"⟩)
      ⟨some "http://api", some "key"⟩ initialBreaker 0
      (.error ⟨none, none, some "timeout of 10000ms exceeded", some "ECONNABORTED"⟩)
      (.ok ()) "11912345678" "oi").defaultInvoked = true ∧
    (sendWhatsAppMessage (some ⟨true, "connected", some "inst"⟩)
      ⟨some "http://api", some "key"⟩ initialBreaker 0
      (.error ⟨none, none, some "timeout of 10000ms exceeded", some "ECONNABORTED"⟩)
      (.ok ()) "11912345678" "oi").result
      = (sendWhatsAppConfirmation ⟨some "http://api", some "key"⟩ initialBreaker 0
          (.ok ()) "11912345678" "oi").res ∧
    (sendWhatsAppMessage (some ⟨true, "connected", some "inst"⟩)
      ⟨some "http://api", some "key"⟩ initialBreaker 0
      (.error ⟨none, none, some "timeout of 10000ms exceeded", some "ECONNABORTED"⟩)
      (.ok ()) "11912345678" "oi").breaker
      = (sendWhatsAppConfirmation ⟨some "http://api", some "key"⟩ initialBreaker 0
          (.ok ()) "11912345678" "oi").cb :=
  router_fallback_on_generic_error ⟨true, "connected", some "inst"⟩
    ⟨some "http://api", some "key"⟩ initialBreaker 0
    ⟨none, none, some "timeout of 10000ms exceeded", some "ECONNABORTED"⟩
    (.ok ()) "11912345678" "oi" rfl rfl (by decide) (by decide)

/-- C4: when the dedicated-session attempt of a connected tenant (enabled,
connectionStatus "connected", truthy instanceName) fails with HTTP 401 or
404, the router writes `connectionStatus = "disconnected"` for the
tenant, invokes the shared default session as a second send, and returns
the default attempt's result instead of the original error. -/
theorem router_fallback_on_auth_or_notfound (c : WhatsappConfig) (env : Env)
    (cb : CircuitBreaker) (now : Nat) (e : AxiosError)
    (defOutcome : Except AxiosError Unit) (phone msg : String)
    (hen : c.enabled = true) (hcs : c.connectionStatus = "connected")
    (hin : truthyStr c.instanceName = true)
    (hauth : e.status = some 404 ∨ e.status = some 401) :
    (sendWhatsAppMessage (some c) env cb now (.error e) defOutcome phone msg).statusWrite
      = some "disconnected" ∧
    (sendWhatsAppMessage (some c) env cb now (.error e) defOutcome phone msg).defaultInvoked
      = true ∧
    (sendWhatsAppMessage (some c) env cb now (.error e) defOutcome phone msg).result
      = (sendWhatsAppConfirmation env cb now defOutcome phone msg).res ∧
    (sendWhatsAppMessage (some c) env cb now (.error e) defOutcome phone msg).breaker
      = (sendWhatsAppConfirmation env cb now defOutcome phone msg).cb := by
  simp only [sendWhatsAppMessage, sendViaInstance, hen, hcs, hin]
  rw [if_pos hauth]
  simp

theorem router_fallback_on_auth_or_notfound_witness :
    (sendWhatsAppMessage (some ⟨true, "connected", some "inst"⟩)
      ⟨some "http://api", some "key"⟩ initialBreaker 0
      (.error ⟨some 404, none, some "Not Found", none⟩)
      (.ok ()) "11912345678" "oi").statusWrite = some "disconnected" ∧
    (sendWhatsAppMessage (some ⟨true, "connected", some "inst"⟩)
      ⟨some "http://api", some "key"⟩ initialBreaker 0
      (.error ⟨some 404, none, some "Not Found", none⟩)
      (.ok ()) "11912345678" "oi").defaultInvoked = true ∧
    (sendWhatsAppMessage (some ⟨true, "connected", some "inst"⟩)
      ⟨some "http://api", some "key"⟩ initialBreaker 0
      (.error ⟨some 404, none, some "Not Found", none⟩)
      (.ok ()) "11912345678" "oi").result
      = (sendWhatsAppConfirmation ⟨some "http://api", some "key"⟩ initialBreaker 0
          (.ok ()) "11912345678" "oi").res ∧
    (sendWhatsAppMessage (some ⟨true, "connected", some "inst"⟩)
      ⟨some "http://api", some "key"⟩ initialBreaker 0
      (.error ⟨some 404, none, some "Not Found", none⟩)
      (.ok ()) "11912345678" "oi").breaker
      = (sendWhatsAppConfirmation ⟨some "http://api", some "key"⟩ initialBreaker 0
          (.ok ()) "11912345678" "oi").cb :=
  router_fallback_on_auth_or_notfound ⟨true, "connected", some "inst"⟩
    ⟨some "http://api", some "key"⟩ initialBreaker 0
    ⟨some 404, none, some "Not Found", none⟩
    (.ok ()) "11912345678" "oi" rfl rfl (by decide) (Or.inl rfl)

/-- C10: each of the three `sendWhatsAppConfirmation` variants resolves
with a record on every input and every path (missing configuration,
circuit-breaker rejection, and every transport error): the result either
has `success = true`, or has `success = false` together with an error
description.  The embeddings are total functions: no path rejects. -/
theorem senders_always_return_result :
    (∀ (env : Env) (cb : CircuitBreaker) (now : Nat)
        (outcome : Except AxiosError Unit) (phone msg : String),
      (sendWhatsAppConfirmation env cb now outcome phone msg).res.success = true ∨
      ((sendWhatsAppConfirmation env cb now outcome phone msg).res.success = false ∧
       (sendWhatsAppConfirmation env cb now outcome phone msg).res.error.isSome = true)) ∧
    (∀ (env : Env) (cb : SimpleBreaker) (now : Nat)
        (outcome : Except AxiosError Unit) (phone msg : String),
      (sendWhatsAppConfirmationSimple env cb now outcome phone msg).res.success = true ∨
      ((sendWhatsAppConfirmationSimple env cb now outcome phone msg).res.success = false ∧
       (sendWhatsAppConfirmationSimple env cb now outcome phone msg).res.error.isSome = true)) ∧
    (∀ (env : Env) (cb : SimpleBreaker) (now : Nat)
        (typingOutcome outcome : Except AxiosError Unit) (phone msg : String),
      (sendWhatsAppConfirmationWaha env cb now typingOutcome outcome phone msg).res.success
        = true ∨
      ((sendWhatsAppConfirmationWaha env cb now typingOutcome outcome phone msg).res.success
        = false ∧
       (sendWhatsAppConfirmationWaha env cb now typingOutcome outcome
         phone msg).res.error.isSome = true)) := by
  refine ⟨?_, ?_, ?_⟩
  · intro env cb now outcome phone msg
    simp only [sendWhatsAppConfirmation]
    split
    · simp [errResult]
    · split
      · simp [errResult]
      · split <;> simp [okResult, errResult]
  · intro env cb now outcome phone msg
    simp only [sendWhatsAppConfirmationSimple]
    split
    · simp [errResult]
    · split
      · simp [errResult]
      · split <;> simp [okResult, errResult]
  · intro env cb now typingOutcome outcome phone msg
    simp only [sendWhatsAppConfirmationWaha]
    split
    · simp [errResult]
    · split
      · simp [errResult]
      · split <;> simp [okResult, errResult]

/-- A populated booking at 9 h with the given phone, paired with the
outcome its send would have (random draw fixed at 0). -/
def demoReminder (p : String) (o : SendOutcome) :
    ReminderItem × SendOutcome × ℚ :=
  ({ populated := true, appointmentHour := 9, phone := p }, o, 0)

/-- A 3-message morning batch whose 2nd send fails by resolving with
`success: false` (the only way a send fails in the source, since
`sendWhatsAppConfirmation` never rejects). -/
def demoBatch : List (ReminderItem × SendOutcome × ℚ) :=
  [demoReminder "p1" (.resolved okResult),
   demoReminder "p2" (.resolved (errResult "Erro desconhecido")),
   demoReminder "p3" (.resolved okResult)]

/-- C8 counterexample: in a 3-message batch whose 2nd send fails, all 3
messages are attempted in order with no early abort, but the dispatcher
reports `sentCount = 3`, not `sent = 2`: the loop increments `sentCount`
whenever the awaited promise resolves, never inspecting `success`, and it
keeps no `failed` counter at all. -/
theorem batch_sent_failed_counterexample :
    (sendDailyRemindersLoop 8 demoBatch).attempted = ["p1", "p2", "p3"] ∧
    (sendDailyRemindersLoop 8 demoBatch).sentCount = 3 ∧
    ¬ (sendDailyRemindersLoop 8 demoBatch).sentCount = 2 := by
  refine ⟨rfl, rfl, ?_⟩
  intro h
  rw [show (sendDailyRemindersLoop 8 demoBatch).sentCount = 3 from rfl] at h
  cases h

/-- C8 amended: the batch dispatcher processes every message in input
order even when individual sends fail, with no early abort: the attempted
phones are exactly the populated, non-hour-filtered bookings in order.
However, the source keeps no failed counter and never inspects the send
result: `sentCount` counts every attempt whose promise resolves,
including sends that resolve with `success: false`; only a rejected
promise (which `sendWhatsAppConfirmation` never produces) is caught,
logged and left uncounted. -/
theorem batch_attempts_all_in_order (tr : Nat)
    (items : List (ReminderItem × SendOutcome × ℚ)) :
    (sendDailyRemindersLoop tr items).attempted =
      (items.filter (processes tr)).map (fun x => x.1.phone) ∧
    (sendDailyRemindersLoop tr items).sentCount =
      ((items.filter (processes tr)).filter (fun x => x.2.1.isResolved)).length := by
  induction items with
  | nil => exact ⟨rfl, rfl⟩
  | cons x rest ih =>
    obtain ⟨item, outcome, r⟩ := x
    by_cases hp : item.populated
    · by_cases hh : hourFilterSkips tr item.appointmentHour
      · simpa [sendDailyRemindersLoop, processes, hp, hh] using ih
      · cases ho : outcome.isResolved <;>
          simp [sendDailyRemindersLoop, processes, hp, hh, ho, ih.1, ih.2,
            Nat.add_comm]
    · simpa [sendDailyRemindersLoop, processes, hp] using ih

/-- The randomized pause of the reminder loop always lies in
[5000 ms, 15000 ms] for any `Math.random()` draw in [0, 1). -/
theorem randomDelayMs_bounds (r : ℚ) (h0 : 0 ≤ r) (h1 : r < 1) :
    5000 ≤ randomDelayMs r ∧ randomDelayMs r ≤ 15000 := by
  have hlt : r * 10001 < 10001 := by nlinarith
  have hfl : ⌊r * 10001⌋ < 10001 := Int.floor_lt.mpr (by exact_mod_cast hlt)
  unfold randomDelayMs
  omega

/-- C9: in the reminder loop, after each send attempt (success or
failure) the dispatcher sleeps a randomized duration that always lies in
[5000 ms, 15000 ms]; for a 3-message batch of processed bookings the
sleeps are exactly the three randomized pauses in order, and the two
inter-message sleeps (before the 2nd and 3rd messages) sum to at least
10000 ms. -/
theorem batch_pacing_bounds (tr : Nat) (i1 i2 i3 : ReminderItem)
    (o1 o2 o3 : SendOutcome) (r1 r2 r3 : ℚ)
    (hp1 : processes tr (i1, o1, r1) = true)
    (hp2 : processes tr (i2, o2, r2) = true)
    (hp3 : processes tr (i3, o3, r3) = true)
    (h01 : 0 ≤ r1) (h11 : r1 < 1) (h02 : 0 ≤ r2) (h12 : r2 < 1)
    (h03 : 0 ≤ r3) (h13 : r3 < 1) :
    (sendDailyRemindersLoop tr [(i1, o1, r1), (i2, o2, r2), (i3, o3, r3)]).sleeps
      = [randomDelayMs r1, randomDelayMs r2, randomDelayMs r3] ∧
    (∀ d ∈ (sendDailyRemindersLoop tr
        [(i1, o1, r1), (i2, o2, r2), (i3, o3, r3)]).sleeps,
      5000 ≤ d ∧ d ≤ 15000) ∧
    10000 ≤ ((sendDailyRemindersLoop tr
        [(i1, o1, r1), (i2, o2, r2), (i3, o3, r3)]).sleeps.take 2).sum := by
  simp only [processes, Bool.and_eq_true, Bool.not_eq_true'] at hp1 hp2 hp3
  have hs : (sendDailyRemindersLoop tr [(i1, o1, r1), (i2, o2, r2), (i3, o3, r3)]).sleeps
      = [randomDelayMs r1, randomDelayMs r2, randomDelayMs r3] := by
    simp [sendDailyRemindersLoop, hp1.1, hp1.2, hp2.1, hp2.2, hp3.1, hp3.2]
  obtain ⟨hb1l, hb1u⟩ := randomDelayMs_bounds r1 h01 h11
  obtain ⟨hb2l, hb2u⟩ := randomDelayMs_bounds r2 h02 h12
  obtain ⟨hb3l, hb3u⟩ := randomDelayMs_bounds r3 h03 h13
  refine ⟨hs, ?_, ?_⟩
  · rw [hs]
    intro d hd
    simp only [List.mem_cons, List.not_mem_nil, or_false] at hd
    rcases hd with h | h | h <;> subst h <;> exact ⟨by omega, by omega⟩
  · rw [hs]
    simp only [List.take, List.sum_cons, List.sum_nil]
    omega

theorem batch_pacing_bounds_witness :
    (sendDailyRemindersLoop 8
      [(⟨true, 9, "p1"⟩, .resolved okResult, (1 : ℚ) / 2),
       (⟨true, 9, "p2"⟩, .resolved okResult, (1 : ℚ) / 2),
       (⟨true, 9, "p3"⟩, .resolved okResult, (1 : ℚ) / 2)]).sleeps
      = [randomDelayMs ((1 : ℚ) / 2), randomDelayMs ((1 : ℚ) / 2),
         randomDelayMs ((1 : ℚ) / 2)] ∧
    (∀ d ∈ (sendDailyRemindersLoop 8
      [(⟨true, 9, "p1"⟩, .resolved okResult, (1 : ℚ) / 2),
       (⟨true, 9, "p2"⟩, .resolved okResult, (1 : ℚ) / 2),
       (⟨true, 9, "p3"⟩, .resolved okResult, (1 : ℚ) / 2)]).sleeps,
      5000 ≤ d ∧ d ≤ 15000) ∧
    10000 ≤ ((sendDailyRemindersLoop 8
      [(⟨true, 9, "p1"⟩, .resolved okResult, (1 : ℚ) / 2),
       (⟨true, 9, "p2"⟩, .resolved okResult, (1 : ℚ) / 2),
       (⟨true, 9, "p3"⟩, .resolved okResult, (1 : ℚ) / 2)]).sleeps.take 2).sum :=
  batch_pacing_bounds 8 ⟨true, 9, "p1"⟩ ⟨true, 9, "p2"⟩ ⟨true, 9, "p3"⟩
    (.resolved okResult) (.resolved okResult) (.resolved okResult)
    ((1 : ℚ) / 2) ((1 : ℚ) / 2) ((1 : ℚ) / 2)
    rfl rfl rfl (by norm_num) (by norm_num) (by norm_num) (by norm_num)
    (by norm_num) (by norm_num)
